import Mathlib

/-!
Shallow embedding of the claim-denial dashboard pipeline (src/app.py):
header normalization, header-offset detection, data cleaning, the three
aggregation tables, the root-cause classifier, and the POST handler's
guard chain.  Tables are lists of records; missing cells (pandas NaN) are
`none`; numeric values are rationals; float rounding is modelled as exact
rational rounding with ties to even (numpy's rounding rule).
-/

namespace ClaimDashboard

/-- Boolean substring test on character lists (used for pandas
`Series.str.contains` with a literal pattern: every pattern in the
taxonomy is alternation of literals, no other regex syntax). -/
def containsSub (pat : List Char) : List Char → Bool
  | [] => pat.isEmpty
  | c :: cs => pat.isPrefixOf (c :: cs) || containsSub pat cs

/-- Case-insensitive containment, as `str.contains(pat, case=False)` for a
single literal alternative. -/
def containsCI (s pat : String) : Bool :=
  containsSub (pat.toList.map Char.toLower) (s.toList.map Char.toLower)

/-- Whitespace stripped from both ends, as Python `str.strip()`. -/
def trimChars (cs : List Char) : List Char :=
  ((cs.dropWhile Char.isWhitespace).reverse.dropWhile Char.isWhitespace).reverse

/-- Per-name header transform of `normalize_columns` (src/app.py lines
37-41): strip surrounding whitespace, lowercase, drop every character
outside [a-z0-9]. -/
def cleanName (s : String) : String :=
  String.mk (((trimChars s.toList).map Char.toLower).filter (fun c => c.isLower || c.isDigit))

/-- Synonym table `col_map` of `normalize_columns` (src/app.py lines 43-59). -/
def col_map : List (String × String) := [
  ("cptcode", "CPT_Code"),
  ("procedurecode", "CPT_Code"),
  ("insurancecompany", "Insurance_Company"),
  ("payername", "Insurance_Company"),
  ("insurancename", "Insurance_Company"),
  ("physicianname", "Physician_Name"),
  ("doctorfullname", "Physician_Name"),
  ("doctorname", "Physician_Name"),
  ("paymentamount", "Payment_Amount"),
  ("paidamount", "Payment_Amount"),
  ("balance", "Balance"),
  ("balanceamt", "Balance"),
  ("outstandingbalance", "Balance"),
  ("denialreason", "Denial_Reason"),
  ("reasonfordenial", "Denial_Reason")]

/-- Full normalization of one header name: clean, then rename through
`col_map` when the cleaned name is a known synonym (src/app.py line 61). -/
def normalize_name (s : String) : String :=
  match col_map.lookup (cleanName s) with
  | some c => c
  | none => cleanName s

/-- A parsed delimited table: one header record and the data records. -/
structure Table where
  header : List String
  rows : List (List String)
deriving DecidableEq, Repr

/-- Required canonical columns (src/app.py line 65). -/
def required_cols : List String :=
  ["CPT_Code", "Insurance_Company", "Physician_Name",
   "Payment_Amount", "Balance", "Denial_Reason"]

/-- One attempt `pd.read_csv(file, header=h)` followed by column
normalization and the required-column check (src/app.py lines 66-72).
`lines` is the sequence of non-blank records of the stream
(skip_blank_lines=True); header=h makes record h the header and the
later records the data; a stream of at most h records raises
EmptyDataError, modelled as `none`, as is a failed column check. -/
def tryHeader (lines : List (List String)) (h : Nat) : Option Table :=
  match lines.drop h with
  | [] => none
  | hd :: tl =>
    let t : Table := ⟨hd.map normalize_name, tl⟩
    if required_cols.all (fun c => t.header.contains c) then some t else none

/-- load_csv (src/app.py lines 64-75): try header offsets 0, 1, 2 in that
order and return the first accepted table, else `none`. -/
def load_csv (lines : List (List String)) : Option Table :=
  match tryHeader lines 0 with
  | some t => some t
  | none =>
    match tryHeader lines 1 with
    | some t => some t
    | none => tryHeader lines 2

/-- Characters `$` and `,` removed everywhere in the cell, as
`.replace(r"[\$,]", "", regex=True)` (src/app.py lines 95-96). -/
def stripMoney (s : String) : String :=
  String.mk (s.toList.filter (fun c => !(c = '$' || c = ',')))

/-- Value of a digit string. -/
def digitsVal (cs : List Char) : Nat :=
  cs.foldl (fun a c => a * 10 + (c.toNat - 48)) 0

/-- Numeric coercion of `pd.to_numeric(-, errors="coerce")` on plain
decimal notation: surrounding whitespace ignored, optional sign, digits
with an optional fractional part; anything else coerces to NaN,
modelled as `none`. -/
def parseDecimal (s : String) : Option ℚ :=
  let cs := trimChars s.toList
  let sb : ℚ × List Char :=
    match cs with
    | '-' :: rest => (-1, rest)
    | '+' :: rest => (1, rest)
    | _ => (1, cs)
  match sb.2.splitOn '.' with
  | [ip] =>
    if ip ≠ [] ∧ ip.all Char.isDigit then
      some (sb.1 * (digitsVal ip : ℚ))
    else none
  | [ip, fp] =>
    if (ip ≠ [] ∨ fp ≠ []) ∧ ip.all Char.isDigit ∧ fp.all Char.isDigit then
      some (sb.1 * ((digitsVal ip : ℚ) + (digitsVal fp : ℚ) / (10 : ℚ) ^ fp.length))
    else none
  | _ => none

/-- Cleaning of one currency cell (src/app.py lines 95-96): strip `$` and
`,`, coerce to numeric, and fill failures and missing cells with 0. -/
def cleanMoney (cell : Option String) : ℚ :=
  match cell with
  | none => 0
  | some s => (parseDecimal (stripMoney s)).getD 0

/-- Is_Denied derivation (src/app.py line 97): null becomes "", then the
row is denied iff the reason is nonempty after strip. -/
def isDeniedReason (cell : Option String) : Bool :=
  !(trimChars (cell.getD "").toList).isEmpty

/-- A raw claim record as loaded: the six required cells, `none` for NaN. -/
structure RawRow where
  cpt : Option String
  payer : Option String
  provider : Option String
  payment : Option String
  balance : Option String
  reason : Option String
deriving DecidableEq

/-- A cleaned claim record: currency cells numeric, denial flag derived. -/
structure Row where
  cpt : Option String
  payer : Option String
  provider : Option String
  payment : ℚ
  balance : ℚ
  reason : Option String
  isDenied : Bool
deriving DecidableEq

/-- Cleaning step for one record (src/app.py lines 95-97). -/
def cleanRow (r : RawRow) : Row :=
  ⟨r.cpt, r.payer, r.provider, cleanMoney r.payment, cleanMoney r.balance,
   r.reason, isDeniedReason r.reason⟩

/-- Cleaning step for the whole table. -/
def cleanTable (rs : List RawRow) : List Row := rs.map cleanRow

/-- Denied sub-table `df[df["Is_Denied"]]`. -/
def denied (rows : List Row) : List Row := rows.filter (fun r => r.isDenied)

/-- groupby(key).size().reset_index(): one output row per distinct
non-null key (pandas groupby drops null keys) with the number of rows
carrying that key.  pandas emits group keys sorted; the dashboard
re-sorts every table for display and no property below depends on the
key order, so keys are listed in first-occurrence order here. -/
def groupCounts (key : Row → Option String) (rows : List Row) : List (String × Nat) :=
  ((rows.filterMap key).dedup).map
    (fun k => (k, (rows.filter (fun r => key r == some k)).length))

/-- Round to the nearest integer, ties to even — the rounding rule of
numpy/pandas `.round`. -/
def roundHalfEven (q : ℚ) : ℤ :=
  if q - ⌊q⌋ < 1/2 then ⌊q⌋
  else if 1/2 < q - ⌊q⌋ then ⌊q⌋ + 1
  else if Even ⌊q⌋ then ⌊q⌋ else ⌊q⌋ + 1

/-- Rounding to 2 decimal places, `.round(2)`. -/
def round2 (q : ℚ) : ℚ := (roundHalfEven (q * 100) : ℚ) / 100

/-- One row of the CPT analysis table. -/
structure CptRow where
  code : String
  total : Nat
  deniedCount : Nat
  rate : ℚ
deriving DecidableEq

/-- total_cpt_counts (src/app.py line 101). -/
def total_cpt_counts (rows : List Row) : List (String × Nat) :=
  groupCounts Row.cpt rows

/-- denied_cpt_counts (src/app.py line 100). -/
def denied_cpt_counts (rows : List Row) : List (String × Nat) :=
  groupCounts Row.cpt (denied rows)

/-- cpt_analysis (src/app.py lines 100-103): left-merge of the total
counts with the denied counts on CPT_Code, missing denied counts filled
with 0, and the rounded percentage denial rate. -/
def cpt_analysis (rows : List Row) : List CptRow :=
  (total_cpt_counts rows).map (fun p =>
    let d := ((denied_cpt_counts rows).lookup p.1).getD 0
    ⟨p.1, p.2, d, round2 ((d : ℚ) / (p.2 : ℚ) * 100)⟩)

/-- payer_denials (src/app.py line 106): denied rows grouped by payer. -/
def payer_denials (rows : List Row) : List (String × Nat) :=
  groupCounts Row.payer (denied rows)

/-- provider_denials (src/app.py line 109): denied rows grouped by physician. -/
def provider_denials (rows : List Row) : List (String × Nat) :=
  groupCounts Row.provider (denied rows)

/-- True iff the string contains any of the keyword alternatives,
case-insensitively (regex alternation of literals). -/
def matchesAny (kws : List String) (s : String) : Bool :=
  kws.any (fun k => containsCI s k)

/-- The 8 fixed root-cause categories with their keyword alternatives
(src/app.py lines 115-124). -/
def root_categories : List (String × List String) := [
  ("Modifier Issues", ["modifier"]),
  ("LCD/NCD Mismatch", ["LCD", "NCD", "medical necessity"]),
  ("Bundling Edits (NCCI)", ["bundl"]),
  ("Lack of Documentation", ["documentation", "record", "16"]),
  ("Prior Authorization Problems", ["prior authorization", "auth"]),
  ("Credentialing or Enrollment Issues", ["credentialing", "enrollment", "provider eligibility"]),
  ("Charge Exceeds Fee Schedule", ["45", "charge exceeds fee schedule"]),
  ("Non-covered Service", ["96", "non-covered service"])]

/-- denial_reasons (src/app.py line 113): Denial_Reason values of denied
rows, nulls dropped. -/
def denial_reasons (rows : List Row) : List String :=
  (denied rows).filterMap Row.reason

/-- root_causes (src/app.py lines 115-124): per category, the number of
denial-reason strings containing any of its alternatives. -/
def root_causes (reasons : List String) : List (String × Nat) :=
  root_categories.map (fun c => (c.1, (reasons.filter (fun s => matchesAny c.2 s)).length))

/-- Count of one category by name. -/
def countFor (name : String) (reasons : List String) : Nat :=
  ((root_causes reasons).lookup name).getD 0

/-- Contents of the rendered result page for an accepted table
(src/app.py lines 99-188).  A chart flag is true iff that chart is
rendered, which the code decides by the emptiness of the underlying
table (lines 157, 164, 171). -/
structure Report where
  cptTable : List CptRow
  payerTable : List (String × Nat)
  providerTable : List (String × Nat)
  causes : List (String × Nat)
  cptChart : Bool
  payerChart : Bool
  providerChart : Bool
deriving DecidableEq

/-- Assembles the result page data (src/app.py lines 99-188). -/
def buildReport (rows : List Row) : Report :=
  ⟨cpt_analysis rows, payer_denials rows, provider_denials rows,
   root_causes (denial_reasons rows),
   !(cpt_analysis rows).isEmpty, !(payer_denials rows).isEmpty,
   !(provider_denials rows).isEmpty⟩

/-- A POST upload: whether the "file" part exists, its filename, and the
records of the file contents. -/
structure UploadRequest where
  hasFilePart : Bool
  filename : String
  content : List (List String)

/-- The handler's possible responses: a 400 error message, or a rendered
page (`page none` is the empty dashboard that GET also renders). -/
inductive Response where
  | error (msg : String)
  | page (table : Option Table)
deriving DecidableEq

/-- Guard chain of the POST branch of the index route (src/app.py lines
80-200).  A nonempty filename that does not end in ".csv" makes the
`if` at line 88 false, so control falls through to the plain
`render_template` at line 190: the empty dashboard page, not an error. -/
def handlePost (req : UploadRequest) : Response :=
  if !req.hasFilePart then .error "No file part in request"
  else if req.filename == "" then .error "No file selected"
  else if ".csv".toList.isSuffixOf req.filename.toList then
    match load_csv req.content with
    | none => .error "Could not detect correct header format or missing required columns."
    | some t => .page (some t)
  else .page none

/-! ### Derived vocabulary -/

/-- Number of rows carrying CPT code `c` (the Total_Claims value). -/
def totalCount (rows : List Row) (c : String) : Nat :=
  (rows.filter (fun r => r.cpt == some c)).length

/-- Number of denied rows carrying CPT code `c` (the Denied_Claims value). -/
def deniedTotal (rows : List Row) (c : String) : Nat :=
  ((denied rows).filter (fun r => r.cpt == some c)).length

/-- The CPT-analysis row the pipeline produces for code `c`. -/
def cptEntry (rows : List Row) (c : String) : CptRow :=
  ⟨c, totalCount rows c, deniedTotal rows c,
   round2 ((deniedTotal rows c : ℚ) / (totalCount rows c : ℚ) * 100)⟩

/-! ### Helper lemmas -/

lemma lookup_map_pair {β : Type} (f : String → β) :
    ∀ (keys : List String) (k : String),
      (keys.map (fun x => (x, f x))).lookup k = if k ∈ keys then some (f k) else none := by
  intro keys
  induction keys with
  | nil => intro k; simp
  | cons a as ih =>
    intro k
    by_cases h : k = a
    · subst h; simp [List.lookup]
    · simp [List.lookup, ih k, h, beq_false_of_ne h]

lemma groupCounts_lookup (key : Row → Option String) (rows : List Row) (k : String) :
    (groupCounts key rows).lookup k =
      if k ∈ (rows.filterMap key).dedup then
        some ((rows.filter (fun r => key r == some k)).length)
      else none := by
  unfold groupCounts
  exact lookup_map_pair _ _ k

lemma deniedTotal_of_not_mem {rows : List Row} {k : String}
    (h : k ∉ (denied rows).filterMap Row.cpt) :
    deniedTotal rows k = 0 := by
  unfold deniedTotal
  have he : (denied rows).filter (fun r => r.cpt == some k) = [] := by
    apply List.filter_eq_nil_iff.mpr
    intro r hr
    simp only [beq_iff_eq]
    intro hc
    exact h (List.mem_filterMap.mpr ⟨r, hr, hc⟩)
  simp [he]

lemma cpt_analysis_eq (rows : List Row) :
    cpt_analysis rows = ((rows.filterMap Row.cpt).dedup).map (cptEntry rows) := by
  unfold cpt_analysis total_cpt_counts groupCounts
  rw [List.map_map]
  apply List.map_congr_left
  intro k hk
  have hd : ((denied_cpt_counts rows).lookup k).getD 0 = deniedTotal rows k := by
    unfold denied_cpt_counts
    rw [groupCounts_lookup]
    by_cases hm : k ∈ ((denied rows).filterMap Row.cpt).dedup
    · simp only [hm, if_true, Option.getD_some]
      rfl
    · simp only [hm, if_false, Option.getD_none]
      exact (deniedTotal_of_not_mem (by simpa using hm)).symm
  simp [Function.comp, cptEntry, totalCount, hd]

lemma cpt_codes (rows : List Row) :
    (cpt_analysis rows).map CptRow.code = (rows.filterMap Row.cpt).dedup := by
  rw [cpt_analysis_eq, List.map_map]
  have hc : CptRow.code ∘ cptEntry rows = id := by funext k; rfl
  rw [hc, List.map_id]

lemma length_filter_and_le {α : Type} (p q : α → Bool) (l : List α) :
    (l.filter (fun a => p a && q a)).length ≤ (l.filter p).length := by
  induction l with
  | nil => simp
  | cons a t ih =>
    by_cases hp : p a
    · by_cases hq : q a
      · simpa [List.filter_cons, hp, hq] using ih
      · simp only [List.filter_cons, hp, hq, Bool.and_false, if_false, if_true]
        exact Nat.le_succ_of_le ih
    · simpa [List.filter_cons, hp] using ih

lemma deniedTotal_le (rows : List Row) (c : String) :
    deniedTotal rows c ≤ totalCount rows c := by
  unfold deniedTotal totalCount denied
  rw [List.filter_filter]
  exact length_filter_and_le _ _ rows

lemma totalCount_pos {rows : List Row} {c : String} (h : c ∈ rows.filterMap Row.cpt) :
    1 ≤ totalCount rows c := by
  obtain ⟨r, hr, hc⟩ := List.mem_filterMap.mp h
  have hm : r ∈ rows.filter (fun r => r.cpt == some c) :=
    List.mem_filter.mpr ⟨hr, by simp [hc]⟩
  exact List.length_pos.mpr (List.ne_nil_of_mem hm)

lemma roundHalfEven_nonneg {q : ℚ} (h : 0 ≤ q) : 0 ≤ roundHalfEven q := by
  unfold roundHalfEven
  have hf : 0 ≤ ⌊q⌋ := Int.floor_nonneg.mpr h
  split_ifs <;> omega

lemma roundHalfEven_le {q : ℚ} {B : ℤ} (h : q ≤ B) : roundHalfEven q ≤ B := by
  unfold roundHalfEven
  have hfB : ⌊q⌋ ≤ B := by
    calc ⌊q⌋ ≤ ⌊(B : ℚ)⌋ := Int.floor_le_floor h
    _ = B := Int.floor_intCast B
  have hflo := Int.floor_le q
  split_ifs with h1 h2 h3
  · exact hfB
  · have hlt : (⌊q⌋ : ℚ) < (B : ℚ) := by linarith
    have : ⌊q⌋ < B := by exact_mod_cast hlt
    omega
  · exact hfB
  · have hge : 1/2 ≤ q - ⌊q⌋ := le_of_not_lt h1
    have hlt : (⌊q⌋ : ℚ) < (B : ℚ) := by
      have hBq : (B : ℚ) ≥ q := h
      linarith
    have : ⌊q⌋ < B := by exact_mod_cast hlt
    omega

lemma round2_nonneg {q : ℚ} (h : 0 ≤ q) : 0 ≤ round2 q := by
  unfold round2
  have h1 := roundHalfEven_nonneg (q := q * 100) (by positivity)
  have h2 : (0 : ℚ) ≤ (roundHalfEven (q * 100) : ℚ) := by exact_mod_cast h1
  linarith

lemma round2_le_100 {q : ℚ} (h : q ≤ 100) : round2 q ≤ 100 := by
  unfold round2
  have h1 : q * 100 ≤ ((10000 : ℤ) : ℚ) := by push_cast; linarith
  have h2 := roundHalfEven_le h1
  have h3 : ((roundHalfEven (q * 100)) : ℚ) ≤ 10000 := by exact_mod_cast h2
  linarith

lemma rate_bounds {d t : Nat} (hd : d ≤ t) (ht : 1 ≤ t) :
    0 ≤ round2 ((d : ℚ) / (t : ℚ) * 100) ∧ round2 ((d : ℚ) / (t : ℚ) * 100) ≤ 100 := by
  have ht0 : (0 : ℚ) < t := by exact_mod_cast ht
  have hq0 : 0 ≤ (d : ℚ) / (t : ℚ) * 100 := by positivity
  have hq1 : (d : ℚ) / (t : ℚ) * 100 ≤ 100 := by
    have hd1 : (d : ℚ) / (t : ℚ) ≤ 1 := by
      rw [div_le_one ht0]
      exact_mod_cast hd
    linarith
  exact ⟨round2_nonneg hq0, round2_le_100 hq1⟩

/-- Concrete table: four claims with CPT 99213, one of them denied, and one
90834 claim. -/
def exC1 : List Row :=
  [⟨some "99213", some "Aetna", some "Dr A", 0, 0, some "Missing modifier", true⟩,
   ⟨some "99213", some "Aetna", some "Dr B", 0, 0, none, false⟩,
   ⟨some "99213", some "Cigna", some "Dr A", 0, 0, none, false⟩,
   ⟨some "99213", some "Cigna", some "Dr B", 0, 0, none, false⟩,
   ⟨some "90834", some "Aetna", some "Dr A", 0, 0, none, false⟩]

/-! ### Claim theorems -/

/-- C1: every CPT code occurring in an accepted table appears in the CPT
analysis with Total_Claims the number of rows carrying the code,
Denied_Claims the number of denied rows carrying it (0 when there are
none — the left-merge fills, it does not omit), and Denial_Rate
round(Denied/Total*100, 2); in particular the code with Total=4 and
Denied=1 in `exC1` gets rate 25.00. -/
theorem cpt_analysis_outer_join :
    (∀ (rows : List Row) (c : String), c ∈ rows.filterMap Row.cpt →
      ∃ e ∈ cpt_analysis rows, e.code = c ∧ e.total = totalCount rows c ∧
        e.deniedCount = deniedTotal rows c ∧
        e.rate = round2 ((deniedTotal rows c : ℚ) / (totalCount rows c : ℚ) * 100)) ∧
    (∀ (rows : List Row) (c : String),
      (∀ r ∈ rows, ¬(r.cpt = some c ∧ r.isDenied = true)) → deniedTotal rows c = 0) ∧
    (∃ e ∈ cpt_analysis exC1, e.code = "99213" ∧ e.total = 4 ∧ e.deniedCount = 1 ∧
      e.rate = 25) := by
  refine ⟨?_, ?_, ?_⟩
  · intro rows c h
    refine ⟨cptEntry rows c, ?_, rfl, rfl, rfl, rfl⟩
    rw [cpt_analysis_eq]
    exact List.mem_map_of_mem _ (List.mem_dedup.mpr h)
  · intro rows c h
    unfold deniedTotal
    have he : (denied rows).filter (fun r => r.cpt == some c) = [] := by
      apply List.filter_eq_nil_iff.mpr
      intro r hr
      obtain ⟨hrr, hrd⟩ := List.mem_filter.mp hr
      simp only [beq_iff_eq]
      intro hc
      exact h r hrr ⟨hc, hrd⟩
    simp [he]
  · refine ⟨cptEntry exC1 "99213", ?_, rfl, by decide, by decide, ?_⟩
    · rw [cpt_analysis_eq]
      exact List.mem_map_of_mem _ (by decide)
    · show round2 ((deniedTotal exC1 "99213" : ℚ) / (totalCount exC1 "99213" : ℚ) * 100) = 25
      rw [show deniedTotal exC1 "99213" = 1 by decide,
          show totalCount exC1 "99213" = 4 by decide]
      norm_num [round2, roundHalfEven]

/-- Witness for C1: the theorem applied to the concrete table `exC1` and
the code "90834". -/
theorem cpt_analysis_outer_join_witness :
    ∃ e ∈ cpt_analysis exC1, e.code = "90834" ∧ e.total = totalCount exC1 "90834" ∧
      e.deniedCount = deniedTotal exC1 "90834" ∧
      e.rate = round2 ((deniedTotal exC1 "90834" : ℚ) / (totalCount exC1 "90834" : ℚ) * 100) :=
  cpt_analysis_outer_join.1 exC1 "90834" (by decide)

/-- C9: every CPT-analysis row has Total_Claims at least 1 and
Denied_Claims between 0 and Total_Claims, so the rate division never
divides by zero and every Denial_Rate lies in [0, 100]. -/
theorem cpt_analysis_invariants (rows : List Row) (e : CptRow)
    (h : e ∈ cpt_analysis rows) :
    1 ≤ e.total ∧ e.deniedCount ≤ e.total ∧ 0 ≤ e.rate ∧ e.rate ≤ 100 := by
  rw [cpt_analysis_eq] at h
  obtain ⟨k, hk, rfl⟩ := List.mem_map.mp h
  have hk' : k ∈ rows.filterMap Row.cpt := List.mem_dedup.mp hk
  have h1 := totalCount_pos hk'
  have h2 := deniedTotal_le rows k
  have h3 := rate_bounds h2 h1
  exact ⟨h1, h2, h3.1, h3.2⟩

/-- Witness for C9: the invariants at a concrete row of the analysis of
`exC1`. -/
theorem cpt_analysis_invariants_witness :
    1 ≤ (cptEntry exC1 "99213").total ∧
      (cptEntry exC1 "99213").deniedCount ≤ (cptEntry exC1 "99213").total ∧
      0 ≤ (cptEntry exC1 "99213").rate ∧ (cptEntry exC1 "99213").rate ≤ 100 :=
  cpt_analysis_invariants exC1 (cptEntry exC1 "99213")
    (by rw [cpt_analysis_eq]; exact List.mem_map_of_mem _ (by decide))

/-- The non-exclusivity example string. -/
def exReason : String := "Missing modifier 59, bundling issue"

/-- C2: each of the 8 fixed categories counts the denial-reason strings
that case-insensitively contain any of its keyword alternatives, and
categories are not mutually exclusive: the reason "Missing modifier 59,
bundling issue" increments both the Modifier Issues count and the
Bundling Edits (NCCI) count. -/
theorem root_cause_counts :
    (∀ (reasons : List String) (name : String) (kws : List String),
      (name, kws) ∈ root_categories →
        (name, (reasons.filter (fun s => matchesAny kws s)).length) ∈ root_causes reasons) ∧
    ("Modifier Issues", ["modifier"]) ∈ root_categories ∧
    ("Bundling Edits (NCCI)", ["bundl"]) ∈ root_categories ∧
    (∀ rest : List String,
      ((exReason :: rest).filter (fun s => matchesAny ["modifier"] s)).length =
        (rest.filter (fun s => matchesAny ["modifier"] s)).length + 1 ∧
      ((exReason :: rest).filter (fun s => matchesAny ["bundl"] s)).length =
        (rest.filter (fun s => matchesAny ["bundl"] s)).length + 1) := by
  refine ⟨?_, by decide, by decide, ?_⟩
  · intro reasons name kws h
    exact List.mem_map_of_mem _ h
  · intro rest
    constructor
    · simp [List.filter_cons, show matchesAny ["modifier"] exReason = true from by decide]
    · simp [List.filter_cons, show matchesAny ["bundl"] exReason = true from by decide]

/-- Witness for C2: the Modifier Issues row of the classifier run on the
one-string input. -/
theorem root_cause_counts_witness :
    ("Modifier Issues", ([exReason].filter (fun s => matchesAny ["modifier"] s)).length) ∈
      root_causes [exReason] :=
  root_cause_counts.1 [exReason] "Modifier Issues" ["modifier"] (by decide)

/-- C3: if the true header row yields the required columns after
normalization and is preceded by 0, 1 or 2 junk rows (rows that do not
themselves satisfy the column check), loading succeeds at the first
satisfying offset and the logical table is the same regardless of the
junk-row count. -/
lemma tryHeader_zero (hd : List String) (tl : List (List String)) :
    tryHeader (hd :: tl) 0 =
      if required_cols.all (fun c => ((hd.map normalize_name) : List String).contains c) then
        some ⟨hd.map normalize_name, tl⟩
      else none := rfl

lemma tryHeader_zero_pos (hd : List String) (tl : List (List String))
    (h : required_cols.all (fun c => (hd.map normalize_name).contains c) = true) :
    tryHeader (hd :: tl) 0 = some ⟨hd.map normalize_name, tl⟩ := by
  rw [tryHeader_zero, h]
  rfl

lemma tryHeader_zero_neg (hd : List String) (tl : List (List String))
    (h : required_cols.all (fun c => (hd.map normalize_name).contains c) = false) :
    tryHeader (hd :: tl) 0 = none := by
  rw [tryHeader_zero, h]
  rfl

lemma tryHeader_one (x : List String) (rest : List (List String)) :
    tryHeader (x :: rest) 1 = tryHeader rest 0 := rfl

lemma tryHeader_two (x : List String) (rest : List (List String)) :
    tryHeader (x :: rest) 2 = tryHeader rest 1 := rfl

theorem header_detection (junk : List (List String)) (hdr : List String)
    (data : List (List String)) (hk : junk.length ≤ 2)
    (hjunk : ∀ j ∈ junk, required_cols.all (fun c => (j.map normalize_name).contains c) = false)
    (hhdr : required_cols.all (fun c => (hdr.map normalize_name).contains c) = true) :
    load_csv (junk ++ hdr :: data) = some ⟨hdr.map normalize_name, data⟩ := by
  match junk with
  | [] =>
    rw [List.nil_append]
    unfold load_csv
    rw [tryHeader_zero_pos hdr data hhdr]
  | [j1] =>
    have h1 := hjunk j1 (by simp)
    rw [List.cons_append, List.nil_append]
    unfold load_csv
    rw [tryHeader_zero_neg j1 _ h1, tryHeader_one, tryHeader_zero_pos hdr data hhdr]
  | [j1, j2] =>
    have h1 := hjunk j1 (by simp)
    have h2 := hjunk j2 (by simp)
    rw [List.cons_append, List.cons_append, List.nil_append]
    unfold load_csv
    rw [tryHeader_zero_neg j1 _ h1, tryHeader_one, tryHeader_zero_neg j2 _ h2,
      tryHeader_two, tryHeader_one, tryHeader_zero_pos hdr data hhdr]
  | j1 :: j2 :: j3 :: t =>
    simp only [List.length_cons] at hk
    omega

/-- A banner line, a header of synonym names, and one data record. -/
def exJunk : List String := ["Monthly Denial Report", "Q1"]

/-- Header row of raw synonym names. -/
def exHdr : List String :=
  ["Procedure Code", "Insurance Company", "Physician Name",
   "Payment Amount", "Balance", "Denial Reason"]

/-- One data record. -/
def exData : List (List String) :=
  [["99213", "Aetna", "Dr A", "$10", "$0", ""]]

/-- Witness for C3: one junk row before a valid header. -/
theorem header_detection_witness :
    load_csv ([exJunk] ++ exHdr :: exData) = some ⟨exHdr.map normalize_name, exData⟩ :=
  header_detection [exJunk] exHdr exData (by decide) (by decide) (by decide)

/-- Records of a small valid CSV, used as upload content. -/
def exC4content : List (List String) :=
  [["CPT_Code", "Insurance_Company", "Physician_Name",
    "Payment_Amount", "Balance", "Denial_Reason"],
   ["99213", "Aetna", "Dr A", "$10", "$0", ""]]

/-- Counterexample to C4 as stated: a POST with file part present and the
nonempty non-CSV filename "claims.txt" is answered with the empty
dashboard page, not with an error response (the code falls through the
`.csv` check to the plain render). -/
theorem non_csv_counterexample :
    handlePost ⟨true, "claims.txt", exC4content⟩ = Response.page none ∧
      ¬∃ msg, handlePost ⟨true, "claims.txt", exC4content⟩ = Response.error msg := by
  constructor
  · rfl
  · rintro ⟨msg, hmsg⟩
    rw [show handlePost ⟨true, "claims.txt", exC4content⟩ = Response.page none from rfl] at hmsg
    exact Response.noConfusion hmsg

/-- C4 amended: a POST whose file part is present and whose nonempty
filename does not end in ".csv" is answered, without the contents being
parsed, by the empty dashboard page rather than an error response. -/
theorem non_csv_fallthrough (fn : String) (content : List (List String))
    (hne : (fn == "") = false)
    (hcsv : (".csv".toList.isSuffixOf fn.toList) = false) :
    handlePost ⟨true, fn, content⟩ = Response.page none := by
  unfold handlePost
  rw [hne, hcsv]
  rfl

/-- Witness for the amended C4. -/
theorem non_csv_fallthrough_witness :
    handlePost ⟨true, "claims.txt", exC4content⟩ = Response.page none :=
  non_csv_fallthrough "claims.txt" exC4content (by decide) (by decide)

/-- A one-row table with no denial. -/
def exC5 : List Row :=
  [⟨some "99213", some "Aetna", some "Dr A", 0, 0, none, false⟩]

/-- Counterexample to C5 as stated: a table with rows but zero denials
does NOT make all three summary tables empty — the CPT analysis keeps
one row per code (with Denied_Claims 0) and its chart is rendered. -/
theorem no_denials_counterexample :
    (∀ r ∈ exC5, r.isDenied = false) ∧ (buildReport exC5).cptTable ≠ [] ∧
      (buildReport exC5).cptChart = true := by
  refine ⟨by decide, ?_, by decide⟩
  intro hnil
  have hnil' : cpt_analysis exC5 = [] := hnil
  rw [cpt_analysis_eq] at hnil'
  simp at hnil'
  have hc := hnil' ⟨some "99213", some "Aetna", some "Dr A", 0, 0, none, false⟩
    (by simp [exC5])
  simp at hc

/-- C5 amended: with zero denied rows nothing fails; the payer and
provider tables are empty and their charts omitted, while the CPT
analysis lists every distinct code with Denied_Claims 0 and Denial_Rate
0, its chart rendered iff that table is nonempty. -/
theorem no_denials_report (rows : List Row) (h : ∀ r ∈ rows, r.isDenied = false) :
    (buildReport rows).payerTable = [] ∧ (buildReport rows).providerTable = [] ∧
    (buildReport rows).payerChart = false ∧ (buildReport rows).providerChart = false ∧
    (∀ e ∈ (buildReport rows).cptTable, e.deniedCount = 0 ∧ e.rate = 0) ∧
    ((buildReport rows).cptChart = true ↔ (buildReport rows).cptTable ≠ []) := by
  have hden : denied rows = [] := by
    apply List.filter_eq_nil_iff.mpr
    intro r hr
    simp [h r hr]
  have hpayer : payer_denials rows = [] := by
    unfold payer_denials
    rw [hden]
    rfl
  have hprov : provider_denials rows = [] := by
    unfold provider_denials
    rw [hden]
    rfl
  refine ⟨hpayer, hprov, ?_, ?_, ?_, ?_⟩
  · show (!(payer_denials rows).isEmpty) = false
    rw [hpayer]
    rfl
  · show (!(provider_denials rows).isEmpty) = false
    rw [hprov]
    rfl
  · intro e he
    rw [show (buildReport rows).cptTable = cpt_analysis rows from rfl, cpt_analysis_eq] at he
    obtain ⟨k, hk, rfl⟩ := List.mem_map.mp he
    have hd0 : deniedTotal rows k = 0 := by
      unfold deniedTotal
      rw [hden]
      rfl
    refine ⟨hd0, ?_⟩
    show round2 ((deniedTotal rows k : ℚ) / (totalCount rows k : ℚ) * 100) = 0
    rw [hd0]
    norm_num [round2, roundHalfEven]
  · show (!(cpt_analysis rows).isEmpty) = true ↔ cpt_analysis rows ≠ []
    simp [List.isEmpty_iff]

/-- Witness for the amended C5 at the concrete one-row table. -/
theorem no_denials_report_witness :
    (buildReport exC5).payerTable = [] ∧ (buildReport exC5).providerTable = [] ∧
    (buildReport exC5).payerChart = false ∧ (buildReport exC5).providerChart = false ∧
    (∀ e ∈ (buildReport exC5).cptTable, e.deniedCount = 0 ∧ e.rate = 0) ∧
    ((buildReport exC5).cptChart = true ↔ (buildReport exC5).cptTable ≠ []) :=
  no_denials_report exC5 (by decide)

/-- A cell of the Denial_Reason column as it arrives from pandas:
missing (NaN), a string, or a number — read_csv infers a numeric dtype
for the column when every non-missing entry is a numeric literal (e.g.
the bare denial codes 16/45/96), and then the cells are numbers, not
strings. -/
inductive ReasonCell where
  | na
  | str (s : String)
  | num (q : ℚ)
deriving DecidableEq

/-- True iff the cell is a numeric (non-string) value. -/
def ReasonCell.isNum : ReasonCell → Bool
  | ReasonCell.num _ => true
  | _ => false

/-- A string-typed cell (NaN or text), as `RawRow.reason` assumes. -/
def cellOfOpt : Option String → ReasonCell
  | none => ReasonCell.na
  | some s => ReasonCell.str s

/-- Line 97 on one cell: `fillna("")` turns NaN into "", then
`x.strip() != ""` is evaluated; on a numeric cell `x.strip()` raises
AttributeError, modelled as `none`. -/
def isDeniedCell : ReasonCell → Option Bool
  | ReasonCell.na => some false
  | ReasonCell.str s => some (!(trimChars s.toList).isEmpty)
  | ReasonCell.num _ => none

/-- Line 97 over the whole Denial_Reason column: the Is_Denied flags,
or `none` (an unhandled AttributeError aborting the request) as soon as
one cell is numeric. -/
def deriveIsDenied : List ReasonCell → Option (List Bool)
  | [] => some []
  | c :: cs =>
    match isDeniedCell c, deriveIsDenied cs with
    | some b, some bs => some (b :: bs)
    | _, _ => none

/-- C6 (code bug): the spec says the cleaning step never fails, but on a
Denial_Reason column that pandas inferred as numeric (every reason a
bare numeric code such as 16), line 97's `x.strip()` raises
AttributeError, modelled as `none`; on columns free of numeric cells
the derivation always succeeds, and on string/missing cells it agrees
with the total string model `isDeniedReason`. -/
theorem cleaning_crashes_on_numeric_reasons :
    deriveIsDenied [ReasonCell.num 16] = none ∧
    (∀ cells : List ReasonCell, (∀ c ∈ cells, c.isNum = false) →
      ∃ bs, deriveIsDenied cells = some bs) ∧
    (∀ cell : Option String, isDeniedCell (cellOfOpt cell) = some (isDeniedReason cell)) := by
  refine ⟨rfl, ?_, ?_⟩
  · intro cells h
    induction cells with
    | nil => exact ⟨[], rfl⟩
    | cons c cs ih =>
      obtain ⟨bs, hbs⟩ := ih (fun x hx => h x (List.mem_cons_of_mem c hx))
      have hc := h c (List.mem_cons_self c cs)
      cases c with
      | na => exact ⟨false :: bs, by simp [deriveIsDenied, isDeniedCell, hbs]⟩
      | str s =>
        exact ⟨(!(trimChars s.toList).isEmpty) :: bs,
          by simp [deriveIsDenied, isDeniedCell, hbs]⟩
      | num q => simp [ReasonCell.isNum] at hc
  · intro cell
    cases cell with
    | none => rfl
    | some s => rfl

/-- Witness for C6: a numeric-free column is derived successfully. -/
theorem cleaning_crashes_on_numeric_reasons_witness :
    ∃ bs, deriveIsDenied [ReasonCell.str "Missing modifier", ReasonCell.na] = some bs :=
  cleaning_crashes_on_numeric_reasons.2.1
    [ReasonCell.str "Missing modifier", ReasonCell.na] (by decide)

/-- C7: currency cleaning strips `$` and `,` and parses the remainder as
a decimal, defaulting to 0 on failure: "$1,234.56" cleans to 1234.56 and
"N/A" cleans to 0. -/
theorem currency_cleaning :
    stripMoney "$1,234.56" = "1234.56" ∧
    cleanMoney (some "$1,234.56") = 1234.56 ∧
    cleanMoney (some "N/A") = 0 ∧
    (∀ s : String, cleanMoney (some s) = (parseDecimal (stripMoney s)).getD 0) := by
  refine ⟨by decide, ?_, rfl, fun s => rfl⟩
  have h : cleanMoney (some "$1,234.56") =
      (1 : ℚ) * ((digitsVal ['1', '2', '3', '4'] : ℚ) +
        (digitsVal ['5', '6'] : ℚ) / (10 : ℚ) ^ (2 : ℕ)) := rfl
  rw [h, show digitsVal ['1', '2', '3', '4'] = 1234 from by decide,
    show digitsVal ['5', '6'] = 56 from by decide]
  norm_num

/-- C8: raw header names that are synonym variants of the same canonical
name — equal after cleaning, or both keys of `col_map` for the same
canonical value — normalize to the identical canonical column; e.g.
"Procedure Code", "procedurecode" and " CPT_Code " all give CPT_Code. -/
theorem normalizer_synonyms :
    (∀ a b cv : String,
      (cleanName a = cleanName b ∨
        (col_map.lookup (cleanName a) = some cv ∧ col_map.lookup (cleanName b) = some cv)) →
      normalize_name a = normalize_name b) ∧
    normalize_name "Procedure Code" = "CPT_Code" ∧
    normalize_name "procedurecode" = "CPT_Code" ∧
    normalize_name " CPT_Code " = "CPT_Code" := by
  refine ⟨?_, by decide, by decide, by decide⟩
  intro a b cv h
  rcases h with h | ⟨h1, h2⟩
  · unfold normalize_name
    rw [h]
  · unfold normalize_name
    rw [h1, h2]

/-- Witness for C8 at two raw variants of CPT_Code. -/
theorem normalizer_synonyms_witness :
    normalize_name "Procedure Code" = normalize_name " CPT_Code " :=
  normalizer_synonyms.1 "Procedure Code" " CPT_Code " "CPT_Code" (by decide)

lemma count_filter_eq_count_filterMap (key : Row → Option String) (rows : List Row)
    (k : String) :
    (rows.filter (fun r => key r == some k)).length = (rows.filterMap key).count k := by
  induction rows with
  | nil => simp
  | cons r rs ih =>
    cases hk : key r with
    | none => simp [List.filter_cons, List.filterMap_cons, hk, ih]
    | some v =>
      by_cases hv : v = k
      · subst hv
        simp [List.filter_cons, List.filterMap_cons, hk, ih, List.count_cons]
      · simp [List.filter_cons, List.filterMap_cons, hk, ih, List.count_cons, hv,
          beq_iff_eq]

lemma sum_groupCounts (key : Row → Option String) (rows : List Row) :
    ((groupCounts key rows).map Prod.snd).sum = (rows.filterMap key).length := by
  unfold groupCounts
  rw [List.map_map]
  have hcongr : (Prod.snd ∘ fun k => (k, (rows.filter (fun r => key r == some k)).length)) =
      fun k => (rows.filterMap key).count k := by
    funext k
    exact count_filter_eq_count_filterMap key rows k
  rw [hcongr]
  exact List.sum_map_count_dedup_eq_length _

lemma sum_map_split {α : Type} (f g : α → ℕ) :
    ∀ l : List α, (l.map (fun x => f x + g x)).sum = (l.map f).sum + (l.map g).sum := by
  intro l
  induction l with
  | nil => rfl
  | cons x t ih =>
    simp only [List.map_cons, List.sum_cons, ih]
    omega

lemma sum_map_indicator_zero (a : String) :
    ∀ K : List String, a ∉ K →
      (K.map (fun k => if (a == k) = true then 1 else 0)).sum = 0 := by
  intro K
  induction K with
  | nil => intro _; rfl
  | cons b t ih =>
    intro h
    have hab : a ≠ b := fun hab => h (hab ▸ List.mem_cons_self b t)
    simp only [List.map_cons, List.sum_cons]
    rw [beq_false_of_ne hab, ih (fun hm => h (List.mem_cons_of_mem b hm))]
    rfl

lemma sum_map_indicator_one (a : String) :
    ∀ K : List String, K.Nodup → a ∈ K →
      (K.map (fun k => if (a == k) = true then 1 else 0)).sum = 1 := by
  intro K
  induction K with
  | nil => intro _ ha; cases ha
  | cons b t ih =>
    intro hnd ha
    simp only [List.map_cons, List.sum_cons]
    rcases List.mem_cons.mp ha with hab | hat
    · subst hab
      rw [beq_self_eq_true]
      rw [sum_map_indicator_zero a t (List.nodup_cons.mp hnd).1]
      rfl
    · have hab : a ≠ b := by
        rintro rfl
        exact (List.nodup_cons.mp hnd).1 hat
      rw [beq_false_of_ne hab, ih (List.nodup_cons.mp hnd).2 hat]
      rfl

lemma sum_counts_superset (L : List String) :
    ∀ K : List String, K.Nodup → (∀ x ∈ L, x ∈ K) →
      (K.map (fun k => L.count k)).sum = L.length := by
  induction L with
  | nil =>
    intro K _ _
    simp
  | cons a t ih =>
    intro K hnd hsub
    have h1 : (K.map (fun k => (a :: t).count k)).sum =
        (K.map (fun k => t.count k + if (a == k) = true then 1 else 0)).sum := by
      congr 1
      apply List.map_congr_left
      intro k _
      rw [List.count_cons]
    rw [h1, sum_map_split, ih K hnd (fun x hx => hsub x (List.mem_cons_of_mem a hx)),
      sum_map_indicator_one a K hnd (hsub a (List.mem_cons_self a t))]
    simp

lemma sum_cpt_denied (rows : List Row) :
    ((cpt_analysis rows).map CptRow.deniedCount).sum =
      ((denied rows).filterMap Row.cpt).length := by
  rw [cpt_analysis_eq, List.map_map]
  have h1 : (CptRow.deniedCount ∘ cptEntry rows) =
      fun k => ((denied rows).filterMap Row.cpt).count k := by
    funext k
    show deniedTotal rows k = _
    unfold deniedTotal
    exact count_filter_eq_count_filterMap Row.cpt (denied rows) k
  rw [h1]
  apply sum_counts_superset
  · exact List.nodup_dedup _
  · intro x hx
    apply List.mem_dedup.mpr
    obtain ⟨r, hr, hc⟩ := List.mem_filterMap.mp hx
    exact List.mem_filterMap.mpr ⟨r, (List.mem_filter.mp hr).1, hc⟩

/-- Two denied rows, one of them carrying no CPT code, no payer and no
physician. -/
def exC10 : List Row :=
  [⟨none, none, none, 0, 0, some "No auth", true⟩,
   ⟨some "99213", some "Aetna", some "Dr A", 0, 0, some "Missing modifier", true⟩]

/-- C10: grouping drops rows with a missing key — the CPT analysis, the
payer table and the provider table each count exactly the denied rows
whose respective key is non-null, so each total can be strictly below
the number of denied claims, as at `exC10`. -/
theorem null_keys_dropped :
    (∀ rows : List Row,
      ((cpt_analysis rows).map CptRow.deniedCount).sum =
        ((denied rows).filterMap Row.cpt).length) ∧
    (∀ rows : List Row,
      ((payer_denials rows).map Prod.snd).sum = ((denied rows).filterMap Row.payer).length) ∧
    (∀ rows : List Row,
      ((provider_denials rows).map Prod.snd).sum =
        ((denied rows).filterMap Row.provider).length) ∧
    ((cpt_analysis exC10).map CptRow.deniedCount).sum < (denied exC10).length ∧
    ((payer_denials exC10).map Prod.snd).sum < (denied exC10).length ∧
    ((provider_denials exC10).map Prod.snd).sum < (denied exC10).length := by
  refine ⟨?_, ?_, ?_, by decide, by decide, by decide⟩
  · intro rows
    exact sum_cpt_denied rows
  · intro rows
    exact sum_groupCounts Row.payer (denied rows)
  · intro rows
    exact sum_groupCounts Row.provider (denied rows)

end ClaimDashboard
